import Mathlib

/-! Verification of the cryptoPunkSearch async-lifecycle core.

Shallow embedding of `src/src/App.tsx` (and, where it differs, the variant
source file `src/unnamed/part_000`): the `asyncReducer` state machine, the
`useSafeDispatch` mount guard, the `run` operation driver of `useAsync`, the
`PunkInfo` rendering branches, and `PunkForm.handleSubmit` input
normalization.

Modelling conventions:
- JS `Error` objects are modelled by their only used field, `message`.
- The reducer is untyped (`any`) in the source; actions are modelled as a
  record with a string `type` tag and possibly-absent (`Option`) payload
  fields, mirroring JS `undefined`.
- A `throw` in the source is modelled with `Except`: `Except.error msg`
  is a thrown `Error msg`, `Except.ok` is normal return.
- `run` is modelled as the trace of dispatches it issues for a future that
  settles with the given outcome; each dispatch records the delay (ms) of a
  core-inserted timer in front of it (`0` = issued directly in the
  settlement callback).  The variant file defers the resolved dispatch by a
  `setTimeout(..., 2000)`; the main file does not.
-/

namespace CryptoPunk

/-- The record returned by the remote API, from the `PunkData` type of
`src/src/App.tsx` lines 21-26. -/
structure PunkData where
  number : String
  type : String
  image : String
  accessories : List String
deriving DecidableEq, Repr

/-- A JS `Error`, modelled by its `message` field (the only field the
program reads or writes). -/
structure Err where
  message : String
deriving DecidableEq, Repr

/-- The four lifecycle states of `PunkInfoState` (`src/src/App.tsx` lines
28-32).  Payloads are `Option` because the reducer is untyped and stores
whatever `action.data` / `action.error` hold, which may be JS `undefined`. -/
inductive PunkInfoState where
  | idle
  | pending
  | rejected (error : Option Err)
  | resolved (data : Option PunkData)
deriving DecidableEq, Repr

/-- The `status` tag of a state, as read off by the destructuring of
`state` in `useAsync`. -/
def PunkInfoState.status : PunkInfoState → String
  | .idle => "idle"
  | .pending => "pending"
  | .rejected _ => "rejected"
  | .resolved _ => "resolved"

/-- The `error` field read off a state by destructuring; `none` models
`undefined`. -/
def PunkInfoState.errField : PunkInfoState → Option Err
  | .rejected e => e
  | _ => none

/-- The `data` field read off a state by destructuring; `none` models
`undefined`. -/
def PunkInfoState.dataField : PunkInfoState → Option PunkData
  | .resolved d => d
  | _ => none

/-- A dispatched action: a string `type` tag with possibly-absent payload
fields, mirroring the untyped objects passed to `dispatch` in the source. -/
structure Action where
  type : String
  data : Option PunkData := none
  error : Option Err := none
deriving DecidableEq, Repr

/-- Function `asyncReducer` of `src/src/App.tsx` lines 50-65 (identical in
the variant file): a `switch` on `action.type`; the `default` branch throws
`Unhandled action type`. -/
def asyncReducer (state : PunkInfoState) (action : Action) :
    Except String PunkInfoState :=
  if action.type = "pending" then
    Except.ok PunkInfoState.pending
  else if action.type = "resolved" then
    Except.ok (PunkInfoState.resolved action.data)
  else if action.type = "rejected" then
    Except.ok (PunkInfoState.rejected action.error)
  else
    Except.error ("Unhandled action type: " ++ action.type)

/-- Sequential application of a list of actions through `asyncReducer`;
a thrown error aborts the sequence, as an uncaught JS `throw` would. -/
def stepAll (s : PunkInfoState) : List Action → Except String PunkInfoState
  | [] => Except.ok s
  | a :: rest =>
    match asyncReducer s a with
    | Except.ok s2 => stepAll s2 rest
    | Except.error msg => Except.error msg

/-- The state owned by one `useAsync` hook instance: the `mountedRef`
flag of `useSafeDispatch` and the reducer state. -/
structure HookState where
  mounted : Bool
  st : PunkInfoState
deriving DecidableEq, Repr

/-- Hook `useSafeDispatch` (`src/src/App.tsx` lines 34-48): the returned callback
`(...args) => (mountedRef.current ? dispatch(...args) : void 0)`.  When the
mount flag is set the action is forwarded to the raw reducer dispatch
synchronously; otherwise the call is `void 0`: nothing is dispatched, no
error is raised, the state is untouched. -/
def safeDispatch (h : HookState) (a : Action) : Except String HookState :=
  if h.mounted then
    (asyncReducer h.st a).map (fun s2 => { mounted := h.mounted, st := s2 })
  else
    Except.ok h

/-- Sequential application of a list of actions through `safeDispatch`. -/
def safeDispatchAll (h : HookState) : List Action → Except String HookState
  | [] => Except.ok h
  | a :: rest =>
    match safeDispatch h a with
    | Except.ok h2 => safeDispatchAll h2 rest
    | Except.error msg => Except.error msg

/-- The fixed user-facing message written onto every caught failure by
`run` (`src/src/App.tsx` lines 88-89). -/
def punkErrorMessage : String :=
  "Punk does not exist, please use the correct format when sumbitting a query!"

/-- One dispatch issued by `run`; `delay` is the duration (ms) of a
core-inserted `setTimeout` in front of the dispatch, `0` meaning the
dispatch is issued directly (synchronously in `run` or directly in the
settlement callback). -/
structure Dispatch where
  delay : Nat
  action : Action
deriving DecidableEq, Repr

/-- The action dispatched first by `run`, with type tag "pending". -/
def pendingAction : Action := { type := "pending" }

/-- Function `run` of `useAsync` (`src/src/App.tsx` lines 80-95), as the
trace of dispatches it issues when the supplied future settles with the
given outcome: first the pending action synchronously, then, in the
settlement callback, either the resolved action carrying `data` or the
rejected action whose carried error has had its `message` overwritten with
`punkErrorMessage`.  No timer is inserted anywhere (every delay is `0`). -/
def run (settled : Except Err PunkData) : List Dispatch :=
  { delay := 0, action := pendingAction } ::
    match settled with
    | Except.ok data =>
        [{ delay := 0, action := { type := "resolved", data := some data } }]
    | Except.error _ =>
        [{ delay := 0,
           action := { type := "rejected",
                       error := some { message := punkErrorMessage } } }]

/-- Function `run` of the variant file (`src/unnamed/part_000` lines
123-140): the same trace except that the resolved dispatch is wrapped in
a `setTimeout(..., 2000)`, a core-inserted 2000 ms timer. -/
def run_v0 (settled : Except Err PunkData) : List Dispatch :=
  { delay := 0, action := pendingAction } ::
    match settled with
    | Except.ok data =>
        [{ delay := 2000, action := { type := "resolved", data := some data } }]
    | Except.error _ =>
        [{ delay := 0,
           action := { type := "rejected",
                       error := some { message := punkErrorMessage } } }]

/-- Is a dispatch one of the two settlement dispatches? -/
def settlementB (d : Dispatch) : Bool :=
  d.action.type == "resolved" || d.action.type == "rejected"

/-- Value of the longest decimal-digit prefix of a character list; `none`
models finding no digits at all. -/
def digitsVal (cs : List Char) : Option Nat :=
  let ds := cs.takeWhile Char.isDigit
  if ds.isEmpty then none
  else some (ds.foldl (fun acc c => acc * 10 + (c.toNat - '0'.toNat)) 0)

/-- JS `parseInt(s)` at radix 10: skip leading whitespace, read an optional
sign and then the longest prefix of decimal digits; `none` models `NaN`
(no digits found). -/
def parseIntJS (s : String) : Option Int :=
  let cs := s.data.dropWhile fun c => c = ' ' ∨ c = '\t' ∨ c = '\n' ∨ c = '\r'
  match cs with
  | '-' :: rest => (digitsVal rest).map fun n => -(n : Int)
  | '+' :: rest => (digitsVal rest).map fun n => (n : Int)
  | _ => (digitsVal cs).map fun n => (n : Int)

/-- Function `handleSubmit` of `PunkForm` (`src/src/App.tsx` lines 249-269), as the
value passed to `onSubmit` (`none` = `onSubmit` is not called, which
happens exactly when `parseInt(punkName)` is `NaN`).  The string
interpolations of "0" and "00" with the stringified parsed number are the prefix
concatenations below, and `punkName.slice(0, 4)` is `String.take 4`. -/
def handleSubmit (punkName : String) : Option String :=
  match parseIntJS punkName with
  | none => none
  | some n =>
    if n < 100 ∧ 10 ≤ n then some ("0" ++ toString n)
    else if n < 10 ∧ 0 ≤ n then some ("00" ++ toString n)
    else if 9999 < n then some (punkName.take 4)
    else some punkName

/-- Function `handleSubmit` of the variant file (`src/unnamed/part_000`
lines 345-362): identical except that the `parseInt(punkName) > 9999`
branch is absent, so such inputs fall to the final `else` unchanged. -/
def handleSubmit_v0 (punkName : String) : Option String :=
  match parseIntJS punkName with
  | none => none
  | some n =>
    if n < 100 ∧ 10 ≤ n then some ("0" ++ toString n)
    else if n < 10 ∧ 0 ≤ n then some ("00" ++ toString n)
    else some punkName

/-- What `PunkInfo` returns for one render: an element tree (abstracted to
the branch that is reached) or a thrown value. -/
inductive Render where
  /-- The empty paragraph placeholder of the idle / empty-identifier
  branch. -/
  | empty
  /-- Rendering `ValidPunkCard` with the given number and punk record
  (also what `PunkCardFallback` renders). -/
  | valid (number : String) (punk : Option PunkData)
  /-- A `throw error`, re-raised to the surrounding error boundary. -/
  | thrown (error : Option Err)
deriving DecidableEq, Repr

/-- The `fallbackPunkData` built by `PunkCardFallback` (`src/src/App.tsx`
lines 205-214): only `number` carries real information, every other field
is a fixed placeholder. -/
def fallbackPunkData (number : String) : PunkData :=
  { number := number
    type := "XXXXX"
    image := "/default.PNG"
    accessories := ["loading..."] }

/-- Component `PunkCardFallback` renders `ValidPunkCard` with the
placeholder data. -/
def PunkCardFallback (number : String) : Render :=
  Render.valid number (some (fallbackPunkData number))

/-- The branch selection of `PunkInfo` (`src/src/App.tsx` lines 142-155)
given the current lifecycle state: a status of idle, or a falsy (empty)
`punkNumber`, renders the empty placeholder; a pending status renders the
fallback card; a rejected status re-throws the error held by the state;
a resolved status renders the card from the data held by the state; the
trailing `throw` is unreachable for the four states. -/
def PunkInfo (punkNumber number : String) (st : PunkInfoState) : Render :=
  if st.status = "idle" ∨ punkNumber = "" then
    Render.empty
  else if st.status = "pending" then
    PunkCardFallback number
  else if st.status = "rejected" then
    Render.thrown st.errField
  else if st.status = "resolved" then
    Render.valid number st.dataField
  else
    Render.thrown
      (some { message :=
        "This exists outside the error boundry and should not display" })

/-- A concrete record used to instantiate theorems, from the success
scenario of the spec. -/
def examplePunk : PunkData :=
  { number := "007", type := "Male", image := "punk.png",
    accessories := ["Cap"] }

lemma safeDispatchAll_unmounted (as : List Action) :
    ∀ h : HookState, h.mounted = false → safeDispatchAll h as = Except.ok h := by
  induction as with
  | nil => intro h _; rfl
  | cons a rest ih =>
      intro h hm
      simp only [safeDispatchAll, safeDispatch, hm, if_false, Bool.false_eq_true]
      exact ih h hm

/-- C1: an event sent through the callback returned by `useSafeDispatch`
is dropped when the mount flag reads false at call time — the raw dispatch
is not applied, no error is raised, and the hook state (flag and lifecycle
state alike) is unchanged, for any one event and for any whole sequence of
deferred events; when the flag reads true the event is forwarded to the
raw reducer dispatch synchronously, the result being exactly the raw
dispatch's outcome. -/
theorem useSafeDispatch_mount_guard (h : HookState) (a : Action)
    (as : List Action) :
    (h.mounted = false →
      safeDispatch h a = Except.ok h ∧ safeDispatchAll h as = Except.ok h) ∧
    (h.mounted = true →
      safeDispatch h a =
        (asyncReducer h.st a).map fun s2 => { mounted := h.mounted, st := s2 }) := by
  constructor
  · intro hm
    exact ⟨by simp [safeDispatch, hm], safeDispatchAll_unmounted as h hm⟩
  · intro hm
    simp [safeDispatch, hm]

/-- Witness for C1 at concrete inputs: with the flag down both a single
dispatch and a sequence of two dispatches leave the state untouched; with
the flag up the pending action is forwarded and transitions the state. -/
theorem useSafeDispatch_mount_guard_witness :
    safeDispatch ⟨false, PunkInfoState.pending⟩ pendingAction =
        Except.ok ⟨false, PunkInfoState.pending⟩ ∧
    safeDispatchAll ⟨false, PunkInfoState.pending⟩ [pendingAction, pendingAction] =
        Except.ok ⟨false, PunkInfoState.pending⟩ ∧
    safeDispatch ⟨true, PunkInfoState.idle⟩ pendingAction =
        Except.ok ⟨true, PunkInfoState.pending⟩ := by
  have h1 := (useSafeDispatch_mount_guard ⟨false, PunkInfoState.pending⟩
    pendingAction [pendingAction, pendingAction]).1 rfl
  have h2 := (useSafeDispatch_mount_guard ⟨true, PunkInfoState.idle⟩
    pendingAction []).2 rfl
  exact ⟨h1.1, h1.2, by rw [h2]; rfl⟩

/-- C2: applying any action whose type tag is "pending" (the Started
event) to `asyncReducer` yields, from every prior state, exactly the
pending state, which holds no data and no error field — any previously
held value or error is discarded. -/
theorem asyncReducer_started_resets (s : PunkInfoState) (a : Action)
    (ht : a.type = "pending") :
    asyncReducer s a = Except.ok PunkInfoState.pending ∧
    PunkInfoState.pending.dataField = none ∧
    PunkInfoState.pending.errField = none := by
  refine ⟨?_, rfl, rfl⟩
  simp [asyncReducer, ht]

/-- Witness for C2: applying Started to a resolved state discards the
held value and yields the bare pending state. -/
theorem asyncReducer_started_resets_witness :
    asyncReducer (PunkInfoState.resolved (some examplePunk)) pendingAction =
      Except.ok PunkInfoState.pending :=
  (asyncReducer_started_resets (PunkInfoState.resolved (some examplePunk))
    pendingAction rfl).1

/-- C3: on any action whose type tag is none of "pending", "resolved",
"rejected", `asyncReducer` throws the Unhandled-action-type error from
every prior state, rather than returning a state or ignoring the event. -/
theorem asyncReducer_unknown_throws (s : PunkInfoState) (a : Action)
    (ht : a.type ∉ ["pending", "resolved", "rejected"]) :
    asyncReducer s a = Except.error ("Unhandled action type: " ++ a.type) := by
  simp only [List.mem_cons, List.mem_singleton, not_or] at ht
  simp [asyncReducer, ht.1, ht.2.1, ht.2.2]

/-- Witness for C3: an action with an unrecognized type tag throws from
the idle state. -/
theorem asyncReducer_unknown_throws_witness :
    ({ type := "bogus" } : Action).type ∉ ["pending", "resolved", "rejected"] ∧
    asyncReducer PunkInfoState.idle { type := "bogus" } =
      Except.error ("Unhandled action type: " ++ "bogus") :=
  ⟨by decide,
   asyncReducer_unknown_throws PunkInfoState.idle { type := "bogus" } (by decide)⟩

lemma status_mem_four (s : PunkInfoState) :
    s.status ∈ ["idle", "pending", "resolved", "rejected"] := by
  cases s <;> simp [PunkInfoState.status]

lemma asyncReducer_recognized_ok (s : PunkInfoState) (a : Action)
    (h : a.type ∈ ["pending", "resolved", "rejected"]) :
    ∃ s2, asyncReducer s a = Except.ok s2 := by
  simp only [List.mem_cons, List.mem_singleton, List.not_mem_nil, or_false] at h
  rcases h with h | h | h
  · exact ⟨PunkInfoState.pending, by simp [asyncReducer, h]⟩
  · exact ⟨PunkInfoState.resolved a.data, by simp [asyncReducer, h]⟩
  · exact ⟨PunkInfoState.rejected a.error, by simp [asyncReducer, h]⟩

/-- C4: from any initial state whose status is among the four lifecycle
tags, running any sequence of recognized events (type tags "pending",
"resolved", "rejected") through `asyncReducer` never throws and lands in a
state whose status is again exactly one of the four tags. -/
theorem asyncReducer_status_closed (s : PunkInfoState) (as : List Action)
    (hs : s.status ∈ ["idle", "pending", "resolved", "rejected"])
    (ha : ∀ a ∈ as, a.type ∈ ["pending", "resolved", "rejected"]) :
    ∃ s2, stepAll s as = Except.ok s2 ∧
      s2.status ∈ ["idle", "pending", "resolved", "rejected"] := by
  induction as generalizing s with
  | nil => exact ⟨s, rfl, hs⟩
  | cons a rest ih =>
      obtain ⟨s1, h1⟩ :=
        asyncReducer_recognized_ok s a (ha a (List.mem_cons_self a rest))
      obtain ⟨s2, h2, hmem⟩ :=
        ih s1 (status_mem_four s1) fun b hb => ha b (List.mem_cons_of_mem a hb)
      exact ⟨s2, by simp [stepAll, h1, h2], hmem⟩

/-- Witness for C4: a concrete pending-resolved-rejected event sequence
from the idle state stays inside the four lifecycle tags. -/
theorem asyncReducer_status_closed_witness :
    PunkInfoState.idle.status ∈ ["idle", "pending", "resolved", "rejected"] ∧
    (∀ a ∈ [pendingAction,
            ({ type := "resolved", data := some examplePunk } : Action),
            ({ type := "rejected", error := some { message := "404" } } : Action)],
        a.type ∈ ["pending", "resolved", "rejected"]) ∧
    ∃ s2, stepAll PunkInfoState.idle
        [pendingAction,
         { type := "resolved", data := some examplePunk },
         { type := "rejected", error := some { message := "404" } }] =
          Except.ok s2 ∧
      s2.status ∈ ["idle", "pending", "resolved", "rejected"] :=
  ⟨by decide, by decide,
   asyncReducer_status_closed PunkInfoState.idle _ (by decide) (by decide)⟩

/-- C5: whenever the future supplied to `run` settles with failure, for
any underlying error and from any prior state, replaying the dispatch
trace of `run` (in both source variants) through the reducer succeeds —
the rejection is converted into state, never escaping — and lands in the
rejected state whose carried error message is exactly the fixed
user-facing string, the underlying message being discarded. -/
theorem run_failure_fixed_message (e : Err) (s : PunkInfoState) :
    stepAll s ((run (Except.error e)).map Dispatch.action) =
      Except.ok (PunkInfoState.rejected (some { message := punkErrorMessage })) ∧
    stepAll s ((run_v0 (Except.error e)).map Dispatch.action) =
      Except.ok (PunkInfoState.rejected (some { message := punkErrorMessage })) :=
  ⟨rfl, rfl⟩

/-- C6: in both source variants, the first dispatch `run` issues is the
Started (pending) dispatch, with no timer in front of it (synchronous,
before `run` returns), every later dispatch of the trace is a settlement
dispatch, and applying the Started dispatch from any state makes the
pending state observable. -/
theorem run_started_first (settled : Except Err PunkData) (s : PunkInfoState) :
    (run settled).head? = some { delay := 0, action := pendingAction } ∧
    (run_v0 settled).head? = some { delay := 0, action := pendingAction } ∧
    asyncReducer s pendingAction = Except.ok PunkInfoState.pending ∧
    (run settled).tail.all settlementB = true ∧
    (run_v0 settled).tail.all settlementB = true := by
  cases settled <;> exact ⟨rfl, rfl, rfl, rfl, rfl⟩

/-- C7 (amended): in `src/src/App.tsx`, `run` inserts no artificial delay
of its own — every dispatch of its trace, the Succeeded dispatch included,
carries delay 0, i.e. is issued directly in the settlement callback. -/
theorem run_no_core_delay (settled : Except Err PunkData) :
    ((run settled).all fun d => d.delay == 0) = true := by
  cases settled <;> rfl

/-- Counterexample to C7 as stated: in the `src/unnamed/part_000` variant
the Succeeded dispatch is deferred behind a core-inserted 2000 ms
`setTimeout`, so not every dispatch of a successful trace is delay-free. -/
theorem run_v0_resolved_delayed :
    run_v0 (Except.ok examplePunk) =
      [{ delay := 0, action := pendingAction },
       { delay := 2000,
         action := { type := "resolved", data := some examplePunk } }] ∧
    ((run_v0 (Except.ok examplePunk)).all fun d => d.delay == 0) = false :=
  ⟨rfl, rfl⟩

lemma pad_ok : ∀ m : Nat, m < 100 →
    (10 ≤ m → ("0" ++ toString (Int.ofNat m)).length = 3 ∧
       parseIntJS ("0" ++ toString (Int.ofNat m)) = some (Int.ofNat m)) ∧
    (m < 10 → ("00" ++ toString (Int.ofNat m)).length = 3 ∧
       parseIntJS ("00" ++ toString (Int.ofNat m)) = some (Int.ofNat m)) := by
  decide

lemma handleSubmit_eq_some (s : String) (n : Int) (hn : parseIntJS s = some n) :
    handleSubmit s =
      (if n < 100 ∧ 10 ≤ n then some ("0" ++ toString n)
       else if n < 10 ∧ 0 ≤ n then some ("00" ++ toString n)
       else if 9999 < n then some (s.take 4)
       else some s) := by
  unfold handleSubmit
  rw [hn]

lemma handleSubmit_v0_eq_some (s : String) (n : Int) (hn : parseIntJS s = some n) :
    handleSubmit_v0 s =
      (if n < 100 ∧ 10 ≤ n then some ("0" ++ toString n)
       else if n < 10 ∧ 0 ≤ n then some ("00" ++ toString n)
       else some s) := by
  unfold handleSubmit_v0
  rw [hn]

/-- C8 (amended, for the `src/src/App.tsx` form): when `parseInt` of the
submitted string is NaN, `onSubmit` is not called; when the parsed value n
lies in [0, 100) the submitted value is n zero-padded to a string of
exactly 3 characters that parses back to n; when n > 9999 the first 4
characters of the raw input are submitted; otherwise (n negative or in
[100, 9999]) the raw input is submitted unchanged.  (The
`src/unnamed/part_000` variant lacks the n > 9999 branch.) -/
theorem handleSubmit_normalizes (s : String) (n : Int)
    (hn : parseIntJS s = some n) :
    ((0 ≤ n ∧ n < 100) → ∃ t, handleSubmit s = some t ∧
        t.length = 3 ∧ parseIntJS t = some n) ∧
    (9999 < n → handleSubmit s = some (s.take 4)) ∧
    ((n < 0 ∨ (100 ≤ n ∧ n ≤ 9999)) → handleSubmit s = some s) ∧
    (∀ u, parseIntJS u = none → handleSubmit u = none) := by
  refine ⟨?_, ?_, ?_, ?_⟩
  · rintro ⟨h0, h100⟩
    by_cases h10 : 10 ≤ n
    · have hs1 : handleSubmit s = some ("0" ++ toString n) := by
        rw [handleSubmit_eq_some s n hn, if_pos ⟨h100, h10⟩]
      obtain ⟨hlen, hparse⟩ := (pad_ok n.toNat (by omega)).1 (by omega)
      have hcast : Int.ofNat n.toNat = n := Int.toNat_of_nonneg h0
      rw [hcast] at hlen hparse
      exact ⟨"0" ++ toString n, hs1, hlen, hparse⟩
    · have hs1 : handleSubmit s = some ("00" ++ toString n) := by
        rw [handleSubmit_eq_some s n hn,
          if_neg (fun hc => h10 hc.2), if_pos ⟨by omega, h0⟩]
      obtain ⟨hlen, hparse⟩ := (pad_ok n.toNat (by omega)).2 (by omega)
      have hcast : Int.ofNat n.toNat = n := Int.toNat_of_nonneg h0
      rw [hcast] at hlen hparse
      exact ⟨"00" ++ toString n, hs1, hlen, hparse⟩
  · intro hbig
    rw [handleSubmit_eq_some s n hn,
      if_neg (fun hc => absurd hc.1 (by omega)),
      if_neg (fun hc => absurd hc.1 (by omega)), if_pos hbig]
  · intro hmid
    rw [handleSubmit_eq_some s n hn,
      if_neg (fun hc => absurd hc.2 (by omega)),
      if_neg (fun hc => by omega), if_neg (by omega)]
  · intro u hu
    unfold handleSubmit
    rw [hu]

/-- Witness for C8: the input "7" is padded to a 3-character string
parsing back to 7, and the input "99999" is truncated to its first 4
characters. -/
theorem handleSubmit_normalizes_witness :
    parseIntJS "7" = some 7 ∧
    (∃ t, handleSubmit "7" = some t ∧ t.length = 3 ∧ parseIntJS t = some 7) ∧
    parseIntJS "99999" = some 99999 ∧
    handleSubmit "99999" = some (("99999" : String).take 4) := by
  have h1 := handleSubmit_normalizes "7" 7 (by decide)
  have h2 := handleSubmit_normalizes "99999" 99999 (by decide)
  exact ⟨by decide, h1.1 (by decide), by decide, h2.2.1 (by decide)⟩

/-- Counterexample to C8 as stated: the `src/unnamed/part_000` variant of
`handleSubmit` has no truncation branch — on the input "99999" it submits
the input unchanged, not its first 4 characters. -/
theorem handleSubmit_v0_no_truncation :
    handleSubmit_v0 "99999" = some "99999" ∧
    handleSubmit_v0 "99999" ≠ some (("99999" : String).take 4) := by
  exact ⟨by decide, by decide⟩

/-- C9: `PunkInfo` renders the empty placeholder whenever the operation
identifier is the empty string, whatever the lifecycle state; with a
non-empty identifier, the pending state renders the fallback card, whose
only informative field is the identifier, and the rejected state is
re-thrown (carrying the state's error) rather than rendered. -/
theorem punkInfo_branch_selection (pn num : String) (st : PunkInfoState) :
    (pn = "" → PunkInfo pn num st = Render.empty) ∧
    (pn ≠ "" → PunkInfo pn num PunkInfoState.pending =
        Render.valid num (some (fallbackPunkData num))) ∧
    (pn ≠ "" → ∀ e, PunkInfo pn num (PunkInfoState.rejected e) =
        Render.thrown e) := by
  refine ⟨fun hpn => ?_, fun hpn => ?_, fun hpn e => ?_⟩
  · simp [PunkInfo, hpn]
  · simp [PunkInfo, PunkInfoState.status, PunkCardFallback, hpn]
  · simp [PunkInfo, PunkInfoState.status, PunkInfoState.errField, hpn]

/-- Witness for C9: with an empty identifier even a rejected state renders
the empty placeholder; with a non-empty identifier the pending state
renders the fallback card and the rejected state re-throws its error. -/
theorem punkInfo_branch_selection_witness :
    PunkInfo "" "x" (PunkInfoState.rejected (some { message := "404" })) =
      Render.empty ∧
    PunkInfo "007" "007" PunkInfoState.pending =
      Render.valid "007" (some (fallbackPunkData "007")) ∧
    PunkInfo "007" "007" (PunkInfoState.rejected (some { message := "404" })) =
      Render.thrown (some { message := "404" }) :=
  ⟨(punkInfo_branch_selection "" "x"
      (PunkInfoState.rejected (some { message := "404" }))).1 rfl,
   (punkInfo_branch_selection "007" "007" PunkInfoState.pending).2.1 (by decide),
   (punkInfo_branch_selection "007" "007" PunkInfoState.idle).2.2 (by decide)
     (some { message := "404" })⟩

/-- C10: an input whose `parseInt` value is negative is passed to
`onSubmit` unchanged — no padding, truncation, or rejection — by the
`handleSubmit` of both source variants. -/
theorem handleSubmit_negative_passthrough (s : String) (n : Int)
    (hn : parseIntJS s = some n) (hneg : n < 0) :
    handleSubmit s = some s ∧ handleSubmit_v0 s = some s := by
  constructor
  · rw [handleSubmit_eq_some s n hn,
      if_neg (fun hc => absurd hc.2 (by omega)),
      if_neg (fun hc => absurd hc.2 (by omega)), if_neg (by omega)]
  · rw [handleSubmit_v0_eq_some s n hn,
      if_neg (fun hc => absurd hc.2 (by omega)),
      if_neg (fun hc => absurd hc.2 (by omega))]

/-- Witness for C10: the input "-5" parses to the negative value -5 and is
submitted unchanged by both variants. -/
theorem handleSubmit_negative_passthrough_witness :
    parseIntJS "-5" = some (-5) ∧ ((-5 : Int) < 0) ∧
    handleSubmit "-5" = some "-5" ∧ handleSubmit_v0 "-5" = some "-5" := by
  have h := handleSubmit_negative_passthrough "-5" (-5) (by decide) (by decide)
  exact ⟨by decide, by decide, h.1, h.2⟩

end CryptoPunk
